import Mathlib

/-!
Verification of the document analyzer (`analyze_document` in `src/streamlit.py`).

The analyzer is embedded shallowly: Python strings become `List Char`
(wrapped as `String` at the interface), Python lists become `List`, and the
three `re.findall` patterns are run by a small backtracking matcher that
mirrors Python's leftmost-match / greedy / ordered-alternation semantics for
the character-class-based patterns the source uses.  Character predicates
(`\d`, `\w`, `str.lower`, whitespace) are modelled at ASCII, which is exact
for every input appearing in the claims.  `time.time()` is modelled by two
explicit rational parameters (entry and exit instants); the availability and
value of the optional `textstat` scorer are modelled by a `Bool` flag and an
abstract scoring function, since `textstat` is a third-party dependency
outside this repository.  Python's `list(set(xs))` has an unspecified
(hash-dependent, per-process deterministic) element order; it is modelled as
first-occurrence deduplication, and no verified property depends on the
chosen order (the properties below are order-insensitive or concern
singleton sets).
-/

/-- Whitespace as recognised by Python's `str.split()` / `str.strip()`
(ASCII fragment). -/
def pyIsSpace (c : Char) : Bool :=
  c == ' ' || c == '\t' || c == '\n' || c == '\r' || c == '\x0b' || c == '\x0c'

/-- The punctuation set of `strip('.,!?;:"()[]')` in `streamlit.py` line 141. -/
def isPunctC (c : Char) : Bool :=
  c == '.' || c == ',' || c == '!' || c == '?' || c == ';' || c == ':' ||
  c == '"' || c == '(' || c == ')' || c == '[' || c == ']'

/-- `s.strip(chars)`: drop characters satisfying `p` from both ends. -/
def stripSet (p : Char → Bool) (l : List Char) : List Char :=
  ((l.dropWhile p).reverse.dropWhile p).reverse

/-- `text.split()`: split on whitespace runs, discarding empty pieces. -/
def splitWsL (l : List Char) : List (List Char) :=
  (l.splitOnP pyIsSpace).filter (fun w => !w.isEmpty)

/-- Does `hay` start with `needle`? -/
def startsWithL : List Char → List Char → Bool
  | [], _ => true
  | _ :: _, [] => false
  | a :: as, b :: bs => a == b && startsWithL as bs

/-- Python's substring test `needle in hay`. -/
def hasSub (needle : List Char) : List Char → Bool
  | [] => needle.isEmpty
  | b :: bs => startsWithL needle (b :: bs) || hasSub needle bs

/-- `list(set(l))`, modelled as keeping the first occurrence of each element
in order (Python's actual set order is hash-dependent; see the header). -/
def firstOccDedup (l : List (List Char)) : List (List Char) :=
  l.reverse.dedup.reverse

/-- `list(set(l))` over strings. -/
def firstOccDedupS (l : List String) : List String :=
  l.reverse.dedup.reverse

/-- Stable insertion (descending by `cnt`): `x` goes before the first later
element whose count does not exceed its own. -/
def insDesc (cnt : List Char → Nat) (x : List Char) : List (List Char) → List (List Char)
  | [] => [x]
  | y :: ys => if cnt y ≤ cnt x then x :: y :: ys else y :: insDesc cnt x ys

/-- Stable sort, descending by `cnt`; on first-occurrence-ordered keys this is
`Counter(...).most_common` (`heapq.nlargest` = stable descending sort). -/
def sortCntDesc (cnt : List Char → Nat) (l : List (List Char)) : List (List Char) :=
  l.foldr (insDesc cnt) []

/-! ### A tiny backtracking regex matcher

Sufficient for the three patterns of `streamlit.py` lines 149-151, all of
which are sequences/alternations of character-class repetitions, literals and
word boundaries.  `mRE` returns the list of possible consumed lengths in
Python's backtracking preference order (greedy repetitions, left alternative
first); the scanner takes the first success at the leftmost position. -/

/-- Regular expressions over single-character classes. -/
inductive RE where
  | eps : RE
  | lit : Char → RE
  | wb : RE
  | rep : (Char → Bool) → Nat → Option Nat → RE
  | cat : RE → RE → RE
  | alt : RE → RE → RE

/-- Python's `\w` (ASCII fragment). -/
def isWordC (c : Char) : Bool := c.isAlphanum || c == '_'

/-- Is a word boundary between `prev` and the head of `rem`? -/
def atBoundary (prev : Option Char) (rem : List Char) : Bool :=
  (match prev with | some c => isWordC c | none => false) !=
  (match rem.head? with | some c => isWordC c | none => false)

/-- All consumed lengths by which the expression can match a prefix of `rem`
(given previous character `prev`), in backtracking preference order. -/
def mRE : RE → Option Char → List Char → List Nat
  | RE.eps, _, _ => [0]
  | RE.lit c, _, rem =>
    match rem with
    | x :: _ => if x == c then [1] else []
    | [] => []
  | RE.wb, prev, rem => if atBoundary prev rem then [0] else []
  | RE.rep p lo hi, _, rem =>
    let r := (rem.takeWhile p).length
    let top := match hi with | some h => min r h | none => r
    ((List.range (top + 1)).reverse).filter (fun k => lo ≤ k)
  | RE.cat r₁ r₂, prev, rem =>
    (mRE r₁ prev rem).flatMap (fun k₁ =>
      let prev₁ := match (rem.take k₁).getLast? with
        | some c => some c
        | none => prev
      (mRE r₂ prev₁ (rem.drop k₁)).map (fun k₂ => k₁ + k₂))
  | RE.alt r₁ r₂, prev, rem => mRE r₁ prev rem ++ mRE r₂ prev rem

/-- Catenation of a pattern list. -/
def cats (l : List RE) : RE := l.foldr RE.cat RE.eps

/-- `re.findall` scanning loop: leftmost match, first in preference order,
resume after the match (advance one character past an empty match). -/
def scanAll (r : RE) : Nat → Option Char → List Char → List (List Char)
  | 0, _, _ => []
  | fuel + 1, prev, rem =>
    match mRE r prev rem with
    | k :: _ =>
      if k == 0 then
        match rem with
        | [] => [[]]
        | x :: xs => [] :: scanAll r fuel (some x) xs
      else
        (rem.take k) ::
          scanAll r fuel
            (match (rem.take k).getLast? with | some c => some c | none => prev)
            (rem.drop k)
    | [] =>
      match rem with
      | [] => []
      | x :: xs => scanAll r fuel (some x) xs

/-- `re.findall r text`. -/
def findAllRE (r : RE) (s : List Char) : List (List Char) :=
  scanAll r (s.length + 1) none s

/-- The date separator class (slash or hyphen). -/
def isDateSep (c : Char) : Bool := c == '/' || c == '-'

/-- The date pattern of line 149: word boundary, one or two digits, a
separator (slash or hyphen), one or two digits, a separator, two to four
digits, word boundary — or, as a second alternative, a word-bounded bare
four-digit number. -/
def dateRE : RE :=
  RE.alt
    (cats [RE.wb, RE.rep Char.isDigit 1 (some 2), RE.rep isDateSep 1 (some 1),
           RE.rep Char.isDigit 1 (some 2), RE.rep isDateSep 1 (some 1),
           RE.rep Char.isDigit 2 (some 4), RE.wb])
    (cats [RE.wb, RE.rep Char.isDigit 4 (some 4), RE.wb])

/-- `\b\d+(?:\.\d+)?%\b` (line 150).  Note the trailing `\b` after `%`. -/
def pctRE : RE :=
  cats [RE.wb, RE.rep Char.isDigit 1 none,
        RE.alt (cats [RE.lit '.', RE.rep Char.isDigit 1 none]) RE.eps,
        RE.lit '%', RE.wb]

/-- `[A-Za-z0-9._%+-]`. -/
def isLocalC (c : Char) : Bool :=
  c.isAlphanum || c == '.' || c == '_' || c == '%' || c == '+' || c == '-'

/-- `[A-Za-z0-9.-]`. -/
def isDomainC (c : Char) : Bool := c.isAlphanum || c == '.' || c == '-'

/-- `[A-Z|a-z]` (the class literally contains a bar). -/
def isTldC (c : Char) : Bool := c.isAlpha || c == '|'

/-- `\b[A-Za-z0-9._%+-]+@[A-Za-z0-9.-]+\.[A-Z|a-z]{2,}\b` (line 151). -/
def emailRE : RE :=
  cats [RE.wb, RE.rep isLocalC 1 none, RE.lit '@', RE.rep isDomainC 1 none,
        RE.lit '.', RE.rep isTldC 2 none, RE.wb]

/-! ### The analyzer (`analyze_document`, lines 108-167), field by field -/

/-- `words = text.split() if text else []` (line 113; `''.split()` is `[]`
already, so the guard is inessential). -/
def wordsOf (text : String) : List (List Char) := splitWsL text.data

/-- `word_count = len(words)` (line 114). -/
def wordCountOf (text : String) : Nat := (wordsOf text).length

/-- `char_count = len(text)` (line 115). -/
def charCountOf (text : String) : Nat := text.data.length

/-- `text_lower = text.lower()` (line 118, ASCII fragment). -/
def textLowerOf (text : String) : List Char := text.data.map Char.toLower

/-- The keyword table of lines 119-123. -/
def academicKws : List (List Char) :=
  ["abstract", "introduction", "methodology", "conclusion"].map String.data

/-- Business keywords (line 121). -/
def businessKws : List (List Char) :=
  ["executive", "business", "market", "strategy"].map String.data

/-- Literary keywords (line 123). -/
def literaryKws : List (List Char) :=
  ["chapter", "novel", "story"].map String.data

/-- Document type detection (lines 118-128). -/
def docTypeOf (text : String) : String :=
  if academicKws.any (fun kw => hasSub kw (textLowerOf text)) then
    "📚 Academic Paper"
  else if businessKws.any (fun kw => hasSub kw (textLowerOf text)) then
    "💼 Business Document"
  else if literaryKws.any (fun kw => hasSub kw (textLowerOf text)) then
    "📖 Literary Work"
  else if wordCountOf text < 100 then
    "📝 Short Document"
  else
    "📄 General Document"

/-- Readability (lines 131-137): `0` unless the `textstat` import and call
succeed (`textstatOk`) and the text is non-empty, in which case the score
`fleschF text` of the external scorer. -/
def readabilityOf (fleschF : String → Rat) (textstatOk : Bool) (text : String) : Rat :=
  if textstatOk && !text.data.isEmpty then fleschF text else 0

/-- The stop-word set of line 140 (26 words). -/
def stop_words : List (List Char) :=
  ["the", "and", "are", "for", "with", "this", "that", "from", "they", "have",
   "been", "will", "can", "was", "were", "not", "you", "your", "but", "all",
   "may", "said", "each", "which", "their", "time"].map String.data

/-- `clean_words = [w.lower().strip('.,!?;:"()[]') for w in words
if len(w) > 3 and w.lower() not in stop_words]` (line 141): the length and
stop-word tests are applied to the raw token, the strip only afterwards. -/
def cleanWordsOf (text : String) : List (List Char) :=
  ((wordsOf text).filter
      (fun w => decide (3 < w.length) && !(stop_words.contains (w.map Char.toLower)))).map
    (fun w => stripSet isPunctC (w.map Char.toLower))

/-- `topics = [word for word, count in Counter(clean_words).most_common(8)]`
(line 142): distinct words in first-occurrence order, stably sorted by
frequency descending, first 8. -/
def topicsOf (text : String) : List String :=
  ((sortCntDesc (fun w => (cleanWordsOf text).count w)
      (firstOccDedup (cleanWordsOf text))).take 8).map String.mk

/-- `sentences = [s.strip() for s in text.split('.') if s.strip()]`
(line 145). -/
def sentencesOf (text : String) : List (List Char) :=
  ((text.data.splitOn '.').map (stripSet pyIsSpace)).filter (fun s => !s.isEmpty)

/-- `summary = '. '.join(sentences[:2]) + '.' if len(sentences) >= 2 else
text[:200] + "..."` (line 146). -/
def summaryOf (text : String) : String :=
  if 2 ≤ (sentencesOf text).length then
    String.mk (List.intercalate ". ".data ((sentencesOf text).take 2)) ++ "."
  else
    String.mk (text.data.take 200) ++ "..."

/-- `list(set(re.findall(dates_pattern, text)))[:5]` (lines 149, 163). -/
def datesOf (text : String) : List String :=
  (firstOccDedupS ((findAllRE dateRE text.data).map String.mk)).take 5

/-- `list(set(re.findall(pct_pattern, text)))[:5]` (lines 150, 164). -/
def percentagesOf (text : String) : List String :=
  (firstOccDedupS ((findAllRE pctRE text.data).map String.mk)).take 5

/-- `list(set(re.findall(email_pattern, text)))[:3]` (lines 151, 165). -/
def emailsOf (text : String) : List String :=
  (firstOccDedupS ((findAllRE emailRE text.data).map String.mk)).take 3

/-- The metadata record returned by `analyze_document` (lines 155-167). -/
structure AnalysisRecord where
  filename : String
  word_count : Nat
  char_count : Nat
  doc_type : String
  readability : Rat
  topics : List String
  summary : String
  dates : List String
  percentages : List String
  emails : List String
  processing_time : Rat
deriving Repr, DecidableEq

/-- `analyze_document(text, filename)` (lines 108-167).  `fleschF` and
`textstatOk` model the external `textstat` scorer and its availability;
`startT`/`endT` model the two `time.time()` readings. -/
def analyze_document (fleschF : String → Rat) (textstatOk : Bool)
    (text filename : String) (startT endT : Rat) : AnalysisRecord :=
  { filename := filename
    word_count := wordCountOf text
    char_count := charCountOf text
    doc_type := docTypeOf text
    readability := readabilityOf fleschF textstatOk text
    topics := topicsOf text
    summary := summaryOf text
    dates := datesOf text
    percentages := percentagesOf text
    emails := emailsOf text
    processing_time := endT - startT }

/-! ### Definitions written from the specification's words, for comparison -/

/-- Summary as the specification states it: split on the literal character
`.`, trim whitespace from each segment, drop empty segments; with at least
two non-empty segments, join the first two with `". "` and append `.`;
otherwise the first 200 characters of the raw text followed by `"..."`. -/
def summary_per_spec (text : String) : String :=
  let segs := ((text.data.splitOn '.').map (stripSet pyIsSpace)).filter
    (fun s => !s.isEmpty)
  if 2 ≤ segs.length then
    String.mk (List.intercalate ". ".data (segs.take 2)) ++ "."
  else
    String.mk (text.data.take 200) ++ "..."

/-- An ordered table of (condition, label) rules: the first rule whose
condition holds wins; the default label applies when none does. -/
def firstMatchRule : List (Bool × String) → String → String
  | [], dflt => dflt
  | (c, label) :: rest, dflt => if c then label else firstMatchRule rest dflt

/-- Document classification as the specification states it: an ordered rule
table evaluated first-match-wins — academic keywords, then business, then
literary, then the short-document word-count rule, then the default —
each a case-insensitive substring test against the full text. -/
def doc_type_per_spec (text : String) : String :=
  firstMatchRule
    [(academicKws.any (fun kw => hasSub kw (textLowerOf text)), "📚 Academic Paper"),
     (businessKws.any (fun kw => hasSub kw (textLowerOf text)), "💼 Business Document"),
     (literaryKws.any (fun kw => hasSub kw (textLowerOf text)), "📖 Literary Work"),
     (decide (wordCountOf text < 100), "📝 Short Document")]
    "📄 General Document"

/-! ### Shared lemmas -/

theorem analyze_summary_eq (fleschF : String → Rat) (textstatOk : Bool)
    (text filename : String) (startT endT : Rat) :
    (analyze_document fleschF textstatOk text filename startT endT).summary =
      summaryOf text := rfl

theorem analyze_doc_type_eq (fleschF : String → Rat) (textstatOk : Bool)
    (text filename : String) (startT endT : Rat) :
    (analyze_document fleschF textstatOk text filename startT endT).doc_type =
      docTypeOf text := rfl

theorem analyze_topics_eq (fleschF : String → Rat) (textstatOk : Bool)
    (text filename : String) (startT endT : Rat) :
    (analyze_document fleschF textstatOk text filename startT endT).topics =
      topicsOf text := rfl

theorem insDesc_perm (cnt : List Char → Nat) (x : List Char) (l : List (List Char)) :
    List.Perm (insDesc cnt x l) (x :: l) := by
  induction l with
  | nil => exact List.Perm.refl _
  | cons y ys ih =>
    unfold insDesc
    by_cases h : cnt y ≤ cnt x
    · simp [h]
    · simp only [h, if_neg, ite_false]
      exact (ih.cons y).trans (List.Perm.swap x y ys)

theorem sortCntDesc_perm (cnt : List Char → Nat) (l : List (List Char)) :
    List.Perm (sortCntDesc cnt l) l := by
  induction l with
  | nil => exact List.Perm.refl _
  | cons x xs ih =>
    exact (insDesc_perm cnt x (sortCntDesc cnt xs)).trans (ih.cons x)

theorem firstOccDedup_subset (l : List (List Char)) : firstOccDedup l ⊆ l := by
  intro x hx
  unfold firstOccDedup at hx
  rw [List.mem_reverse] at hx
  have hx' : x ∈ l.reverse := List.dedup_subset _ hx
  exact List.mem_reverse.mp hx'

theorem firstOccDedupS_nodup (l : List String) : (firstOccDedupS l).Nodup := by
  unfold firstOccDedupS
  exact List.nodup_reverse.mpr (List.nodup_dedup _)

theorem take_nodup {α : Type} (n : Nat) (l : List α) (h : l.Nodup) :
    (l.take n).Nodup := h.sublist (List.take_sublist n l)

/-! ### The claims -/

/-- C1 (corrected), counterexample to the original claim: with the scorer
unavailable the readability field is the number `0`, not an absent marker,
and a scorer that genuinely returns a zero score produces the very same
field value, so the record does not distinguish the two. -/
theorem C1_claim_counterexample :
    (analyze_document (fun _ => 0) false "hello" "f" 0 0).readability = 0 ∧
    (analyze_document (fun _ => 0) true "hello" "f" 0 0).readability =
      (analyze_document (fun _ => 0) false "hello" "f" 0 0).readability := by
  exact ⟨rfl, rfl⟩

/-- C1 (amended): if the text is empty or the scorer is unavailable, the
readability field of the record produced by `analyze_document` is the number
zero (the sentinel the code uses), so no-score and a zero score coincide. -/
theorem C1_readability_zero_sentinel (fleschF : String → Rat) (textstatOk : Bool)
    (text filename : String) (startT endT : Rat)
    (h : textstatOk = false ∨ text = "") :
    (analyze_document fleschF textstatOk text filename startT endT).readability = 0 := by
  show readabilityOf fleschF textstatOk text = 0
  unfold readabilityOf
  rcases h with h | h
  · subst h; rfl
  · subst h; cases textstatOk <;> rfl

/-- C1 witness: the amended statement at a concrete input. -/
theorem C1_witness :
    (analyze_document (fun _ => 0) false "hello" "f" 0 0).readability = 0 :=
  C1_readability_zero_sentinel (fun _ => 0) false "hello" "f" 0 0 (Or.inl rfl)

/-- C4 (corrected), counterexample to the original claim: the record's
doc_type carries a leading icon, so it is none of the five plain strings the
claim lists. -/
theorem C4_claim_counterexample :
    (analyze_document (fun _ => 0) false "" "f" 0 0).doc_type = "📝 Short Document" ∧
    "📝 Short Document" ∉ (["Academic Paper", "Business Document", "Literary Work",
      "Short Document", "General Document"] : List String) := by
  exact ⟨rfl, by decide⟩

/-- C4 (amended): for every input text and filename, the doc_type field of
the record returned by `analyze_document` is exactly one of the five
icon-prefixed labels. -/
theorem C4_doc_type_enum (fleschF : String → Rat) (textstatOk : Bool)
    (text filename : String) (startT endT : Rat) :
    (analyze_document fleschF textstatOk text filename startT endT).doc_type ∈
      (["📚 Academic Paper", "💼 Business Document", "📖 Literary Work",
        "📝 Short Document", "📄 General Document"] : List String) := by
  show docTypeOf text ∈ _
  unfold docTypeOf
  split_ifs <;> simp

/-- C5 (confirmed): two calls on identical text and filename (under the same
scorer environment) agree on every field except processing_time, whatever
the clock readings of the two calls are. -/
theorem C5_deterministic_except_time (fleschF : String → Rat) (textstatOk : Bool)
    (text filename : String) (s₁ e₁ s₂ e₂ : Rat) :
    (analyze_document fleschF textstatOk text filename s₁ e₁).filename =
      (analyze_document fleschF textstatOk text filename s₂ e₂).filename ∧
    (analyze_document fleschF textstatOk text filename s₁ e₁).word_count =
      (analyze_document fleschF textstatOk text filename s₂ e₂).word_count ∧
    (analyze_document fleschF textstatOk text filename s₁ e₁).char_count =
      (analyze_document fleschF textstatOk text filename s₂ e₂).char_count ∧
    (analyze_document fleschF textstatOk text filename s₁ e₁).doc_type =
      (analyze_document fleschF textstatOk text filename s₂ e₂).doc_type ∧
    (analyze_document fleschF textstatOk text filename s₁ e₁).readability =
      (analyze_document fleschF textstatOk text filename s₂ e₂).readability ∧
    (analyze_document fleschF textstatOk text filename s₁ e₁).topics =
      (analyze_document fleschF textstatOk text filename s₂ e₂).topics ∧
    (analyze_document fleschF textstatOk text filename s₁ e₁).summary =
      (analyze_document fleschF textstatOk text filename s₂ e₂).summary ∧
    (analyze_document fleschF textstatOk text filename s₁ e₁).dates =
      (analyze_document fleschF textstatOk text filename s₂ e₂).dates ∧
    (analyze_document fleschF textstatOk text filename s₁ e₁).percentages =
      (analyze_document fleschF textstatOk text filename s₂ e₂).percentages ∧
    (analyze_document fleschF textstatOk text filename s₁ e₁).emails =
      (analyze_document fleschF textstatOk text filename s₂ e₂).emails :=
  ⟨rfl, rfl, rfl, rfl, rfl, rfl, rfl, rfl, rfl, rfl⟩

/-- C6 (confirmed): the summary field is exactly the specification's
split-on-dot / trim / drop-empty / first-two-or-200-chars computation. -/
theorem C6_summary_matches_spec (fleschF : String → Rat) (textstatOk : Bool)
    (text filename : String) (startT endT : Rat) :
    (analyze_document fleschF textstatOk text filename startT endT).summary =
      summary_per_spec text := rfl

/-- C10 (confirmed): on empty input the summary is exactly `"..."` (the
empty 200-character prefix followed by the ellipsis), not the empty
string. -/
theorem C10_empty_summary (fleschF : String → Rat) (textstatOk : Bool)
    (filename : String) (startT endT : Rat) :
    (analyze_document fleschF textstatOk "" filename startT endT).summary = "..." ∧
    (analyze_document fleschF textstatOk "" filename startT endT).summary ≠ "" := by
  refine ⟨rfl, ?_⟩
  rw [show (analyze_document fleschF textstatOk "" filename startT endT).summary =
    "..." from rfl]
  decide

/-- C9 (confirmed): `analyze_document` is a total function — for every text
and filename it returns a record — and on the empty string it degrades to
zero counts and empty sequences. -/
theorem C9_total_and_graceful (fleschF : String → Rat) (textstatOk : Bool)
    (text filename : String) (startT endT : Rat) :
    ∃ r : AnalysisRecord,
      analyze_document fleschF textstatOk text filename startT endT = r ∧
      (text = "" →
        r.word_count = 0 ∧ r.char_count = 0 ∧ r.topics = [] ∧
        r.dates = [] ∧ r.percentages = [] ∧ r.emails = []) := by
  refine ⟨_, rfl, fun h => ?_⟩
  subst h
  exact ⟨rfl, rfl, rfl, rfl, rfl, rfl⟩

/-- C9 witness: evaluation of the graceful degradation at the empty input. -/
theorem C9_witness :
    (analyze_document (fun _ => 0) false "" "doc.txt" 0 0).word_count = 0 ∧
    (analyze_document (fun _ => 0) false "" "doc.txt" 0 0).char_count = 0 ∧
    (analyze_document (fun _ => 0) false "" "doc.txt" 0 0).topics = [] ∧
    (analyze_document (fun _ => 0) false "" "doc.txt" 0 0).dates = [] ∧
    (analyze_document (fun _ => 0) false "" "doc.txt" 0 0).percentages = [] ∧
    (analyze_document (fun _ => 0) false "" "doc.txt" 0 0).emails = [] := by
  obtain ⟨r, hr, h⟩ := C9_total_and_graceful (fun _ => 0) false "" "doc.txt" 0 0
  rw [hr]
  exact h rfl

/-- C7 (confirmed): classification is the ordered first-match-wins rule
table (academic, business, literary, short, default) over case-insensitive
substring tests, and in particular any text containing both "abstract" and
"executive" gets the academic label (which carries its icon prefix). -/
theorem C7_classification_priority (fleschF : String → Rat) (textstatOk : Bool)
    (text filename : String) (startT endT : Rat) :
    (analyze_document fleschF textstatOk text filename startT endT).doc_type =
      doc_type_per_spec text ∧
    (hasSub "abstract".data (textLowerOf text) = true →
     hasSub "executive".data (textLowerOf text) = true →
     (analyze_document fleschF textstatOk text filename startT endT).doc_type =
       "📚 Academic Paper") := by
  rw [analyze_doc_type_eq]
  constructor
  · simp only [docTypeOf, doc_type_per_spec, firstMatchRule, decide_eq_true_eq]
  · intro h₁ _
    have hmem : "abstract".data ∈ academicKws := by simp [academicKws]
    have hany : academicKws.any (fun kw => hasSub kw (textLowerOf text)) = true :=
      List.any_eq_true.mpr ⟨_, hmem, h₁⟩
    unfold docTypeOf
    simp [hany]

/-- C7 witness: a text containing both keywords (one capitalised, showing
case-insensitivity) classifies as the academic label. -/
theorem C7_witness :
    (analyze_document (fun _ => 0) false "Abstract and executive summary" "f" 0
      0).doc_type = "📚 Academic Paper" :=
  (C7_classification_priority (fun _ => 0) false "Abstract and executive summary"
    "f" 0 0).2 (by decide) (by decide)

/-- C2 (corrected), counterexample to the original claim: on the input
`"the."` the single topic is `"the"`, which is in the stop-word set and has
length three — the filter runs on the raw token before stripping, so the
stripped topic escapes both tests. -/
theorem C2_claim_counterexample :
    "the" ∈ (analyze_document (fun _ => 0) false "the." "f" 0 0).topics ∧
    "the".data ∈ stop_words ∧ "the".length ≤ 3 :=
  ⟨by decide, by decide, by decide⟩

/-- C2 (amended): topics has at most 8 entries, and every topic is the
lower-cased, punctuation-stripped form of a raw whitespace token whose raw
length exceeds 3 and whose lower-cased (unstripped) form is not a stop word;
the length and stop-word tests precede the stripping, not follow it. -/
theorem C2_topics_shape (fleschF : String → Rat) (textstatOk : Bool)
    (text filename : String) (startT endT : Rat) :
    (analyze_document fleschF textstatOk text filename startT endT).topics.length ≤ 8 ∧
    ∀ t ∈ (analyze_document fleschF textstatOk text filename startT endT).topics,
      ∃ w ∈ wordsOf text, 3 < w.length ∧
        stop_words.contains (w.map Char.toLower) = false ∧
        t = String.mk (stripSet isPunctC (w.map Char.toLower)) := by
  rw [analyze_topics_eq]
  constructor
  · show (topicsOf text).length ≤ 8
    unfold topicsOf
    rw [List.length_map, List.length_take]
    exact min_le_left _ _
  · intro t ht
    unfold topicsOf at ht
    obtain ⟨w', hw', rfl⟩ := List.mem_map.mp ht
    have h₂ : w' ∈ firstOccDedup (cleanWordsOf text) :=
      (sortCntDesc_perm _ _).subset ((List.take_sublist _ _).subset hw')
    have h₃ : w' ∈ cleanWordsOf text := firstOccDedup_subset _ h₂
    unfold cleanWordsOf at h₃
    obtain ⟨w, hw, rfl⟩ := List.mem_map.mp h₃
    obtain ⟨hmem, hcond⟩ := List.mem_filter.mp hw
    rw [Bool.and_eq_true] at hcond
    obtain ⟨hlen, hstop⟩ := hcond
    exact ⟨w, hmem, of_decide_eq_true hlen, by simpa using hstop, rfl⟩

/-- C2 witness: the amended statement at a concrete input, instantiated at
the topic "alpha". -/
theorem C2_witness :
    (analyze_document (fun _ => 0) false "alpha beta alpha" "f" 0 0).topics.length ≤ 8 ∧
    ∃ w ∈ wordsOf "alpha beta alpha", 3 < w.length ∧
      stop_words.contains (w.map Char.toLower) = false ∧
      "alpha" = String.mk (stripSet isPunctC (w.map Char.toLower)) := by
  obtain ⟨h₁, h₂⟩ := C2_topics_shape (fun _ => 0) false "alpha beta alpha" "f" 0 0
  exact ⟨h₁, h₂ "alpha" (by decide)⟩

/-- C8 (confirmed): the three entity lists obey their caps and are
duplicate-free (dedup before truncation). -/
theorem C8_entity_caps (fleschF : String → Rat) (textstatOk : Bool)
    (text filename : String) (startT endT : Rat) :
    (analyze_document fleschF textstatOk text filename startT endT).dates.length ≤ 5 ∧
    (analyze_document fleschF textstatOk text filename startT endT).percentages.length ≤ 5 ∧
    (analyze_document fleschF textstatOk text filename startT endT).emails.length ≤ 3 ∧
    (analyze_document fleschF textstatOk text filename startT endT).dates.Nodup ∧
    (analyze_document fleschF textstatOk text filename startT endT).percentages.Nodup ∧
    (analyze_document fleschF textstatOk text filename startT endT).emails.Nodup := by
  refine ⟨?_, ?_, ?_, ?_, ?_, ?_⟩
  · show (datesOf text).length ≤ 5
    unfold datesOf; rw [List.length_take]; exact min_le_left _ _
  · show (percentagesOf text).length ≤ 5
    unfold percentagesOf; rw [List.length_take]; exact min_le_left _ _
  · show (emailsOf text).length ≤ 3
    unfold emailsOf; rw [List.length_take]; exact min_le_left _ _
  · show (datesOf text).Nodup
    exact take_nodup _ _ (firstOccDedupS_nodup _)
  · show (percentagesOf text).Nodup
    exact take_nodup _ _ (firstOccDedupS_nodup _)
  · show (emailsOf text).Nodup
    exact take_nodup _ _ (firstOccDedupS_nodup _)

/-- C3 (code bug): on the specification's scenario input the emails and
dates come out as stated, but the percentages list is empty — the trailing
word boundary of the percentage pattern fails after `%` when the next
character is a period or a space, so neither "18.5%" nor "18%" is found. -/
theorem C3_scenario_eval :
    (analyze_document (fun _ => 0) false
      "Contact john@example.com on 12/05/2023. Growth was 18.5%. Revenue increased 18% year-over-year."
      "report.txt" 0 0).emails = ["john@example.com"] ∧
    "12/05/2023" ∈ (analyze_document (fun _ => 0) false
      "Contact john@example.com on 12/05/2023. Growth was 18.5%. Revenue increased 18% year-over-year."
      "report.txt" 0 0).dates ∧
    (analyze_document (fun _ => 0) false
      "Contact john@example.com on 12/05/2023. Growth was 18.5%. Revenue increased 18% year-over-year."
      "report.txt" 0 0).percentages = [] :=
  ⟨by decide, by decide, by decide⟩

/-- C10 witness: the empty-input summary at concrete remaining arguments. -/
theorem C10_witness :
    (analyze_document (fun _ => 0) false "" "w.txt" 0 0).summary = "..." ∧
    (analyze_document (fun _ => 0) false "" "w.txt" 0 0).summary ≠ "" :=
  C10_empty_summary (fun _ => 0) false "w.txt" 0 0
